import Mathlib

/-!
Verification of the PTY session subsystem of pixi-gui (src-tauri/src/pty.rs
and src-tauri/src/state.rs), shallowly embedded in Lean 4.

The embedding mirrors the Rust source:
* `PtyInvocation` / `PtyInvocationKind` and `PtyInvocation.argv` follow
  `pty.rs` lines 74-149; the ambient environment consulted by
  `find_pixi_binary` (PATH lookup, `PIXI_HOME`, the home directory, and the
  file-existence probes) is reified as a `PixiEnv` record, so the binary
  resolution is a pure function of that record.
* The rolling buffer (`PtyBuffer`, `store_chunk`) follows `pty.rs` 197-201
  and 318-332; Rust's `str::len` is UTF-8 byte length, embedded as
  `String.utf8ByteSize`, and `saturating_sub` is `Nat` subtraction.
* The registry (`AppState`) follows `state.rs`; its two `HashMap`s are
  embedded as association lists with `mapLookup`/`mapInsert`/`mapErase`,
  and `remove_pty` is split into its two lock-acquisition steps exactly as
  the source performs them (insert into `exited_ptys` first, then remove
  from `ptys`).
* `PtyHandle.kill` (`pty.rs` 361-388) is embedded as a function from the
  handle state and an oracle (does the completion signal arrive within the
  5-second grace period) to the new state plus the ordered list of actions
  the source performs.
* The per-session reader loop and exit watcher (`pty.rs` 433-513) are
  embedded as a small-step transition system `OStep` over `OrchState`, with
  every interleaving permitted that the source's synchronisation
  (`reader_done_rx.recv()`) allows.
-/

namespace PixiGui

/-! ### Invocation data model (pty.rs 74-105) -/

structure PtyShellInvocation where
  environment : String
deriving DecidableEq, Repr

structure PtyTaskInvocation where
  task : String
  environment : Option String
  args : List String
deriving DecidableEq, Repr

structure PtyCommandInvocation where
  command : String
  environment : String
deriving DecidableEq, Repr

inductive PtyInvocationKind where
  | shell (data : PtyShellInvocation)
  | task (data : PtyTaskInvocation)
  | command (data : PtyCommandInvocation)
deriving DecidableEq, Repr

structure PtyInvocation where
  cwd : String
  manifest : String
  kind : PtyInvocationKind
deriving DecidableEq, Repr

/-! ### Binary resolution (pty.rs 36-72)

`find_pixi_binary` consults the ambient process environment: the result of
`which::which("pixi")`, the `PIXI_HOME` variable, the home directory
(`HOME` / `USERPROFILE`), and file-existence checks. `PixiEnv` reifies
those observations so the function becomes pure. -/

structure PixiEnv where
  /-- Result of `which::which("pixi")` (already converted to a string). -/
  whichPixi : Option String
  /-- Value of the `PIXI_HOME` environment variable, when set. -/
  pixiHomeVar : Option String
  /-- `home_dir()`: `USERPROFILE` on windows, `HOME` elsewhere. -/
  homeVar : Option String
  /-- `Path::is_file` probe of the ambient filesystem. -/
  is_file : String → Bool

/-- `PathBuf::join` for the paths built in `find_pixi_binary`. -/
def pathJoin (base sub : String) : String := base ++ "/" ++ sub

/-- Step 3 of `find_pixi_binary`: try `~/.pixi/bin/pixi`, else fall back
to the bare name `"pixi"` (pty.rs 50-59). -/
def pixiFromHome (env : PixiEnv) : String :=
  match env.homeVar with
  | some home =>
    let pixi_path := pathJoin (pathJoin (pathJoin home ".pixi") "bin") "pixi"
    if env.is_file pixi_path then pixi_path else "pixi"
  | none => "pixi"

/-- `find_pixi_binary` (pty.rs 36-60): PATH first, then `$PIXI_HOME/bin/pixi`,
then `~/.pixi/bin/pixi`, finally the bare name `"pixi"`. -/
def find_pixi_binary (env : PixiEnv) : String :=
  match env.whichPixi with
  | some path => path
  | none =>
    match env.pixiHomeVar with
    | some pixi_home =>
      let pixi_path := pathJoin (pathJoin pixi_home "bin") "pixi"
      if env.is_file pixi_path then pixi_path else pixiFromHome env
    | none => pixiFromHome env

/-- `PtyInvocation::argv` (pty.rs 107-149). -/
def PtyInvocation.argv (env : PixiEnv) (self : PtyInvocation) : List String :=
  let pixi := find_pixi_binary env
  match self.kind with
  | .shell data =>
    [pixi, "shell", "--manifest-path", self.manifest, "--environment",
      data.environment]
  | .task data =>
    let argv := [pixi, "run", "--manifest-path", self.manifest]
    let argv := argv ++
      (match data.environment with
       | some e => ["--environment", e]
       | none => [])
    (argv ++ [data.task]) ++ data.args
  | .command data =>
    [pixi, "run", "--manifest-path", self.manifest, "--environment",
      data.environment, data.command]

/-- C6: argv construction is a pure, deterministic function of the
invocation once the runner binary is resolved — it depends only on the
resolved binary, the manifest and the invocation kind, not on the working
directory or any other ambient state — and the concrete Task invocation
`{task := "build", environment := some "dev", args := ["--release"],
manifest := "/ws/pixi.toml"}` maps exactly to
`[run-binary, "run", "--manifest-path", "/ws/pixi.toml", "--environment",
"dev", "build", "--release"]`. -/
theorem argv_pure_and_task_concrete (env env2 : PixiEnv)
    (cwd cwd2 m : String) (k : PtyInvocationKind)
    (hpixi : find_pixi_binary env = find_pixi_binary env2) :
    PtyInvocation.argv env
      ⟨cwd, "/ws/pixi.toml",
        .task ⟨"build", some "dev", ["--release"]⟩⟩ =
      [find_pixi_binary env, "run", "--manifest-path", "/ws/pixi.toml",
        "--environment", "dev", "build", "--release"] ∧
    PtyInvocation.argv env ⟨cwd, m, k⟩ =
      PtyInvocation.argv env2 ⟨cwd2, m, k⟩ := by
  constructor
  · rfl
  · unfold PtyInvocation.argv
    rw [hpixi]

/-- Witness for `argv_pure_and_task_concrete` at a concrete environment. -/
theorem argv_pure_and_task_concrete_witness :
    PtyInvocation.argv ⟨none, none, none, fun _ => false⟩
      ⟨"/ws", "/ws/pixi.toml",
        .task ⟨"build", some "dev", ["--release"]⟩⟩ =
      [find_pixi_binary ⟨none, none, none, fun _ => false⟩, "run",
        "--manifest-path", "/ws/pixi.toml", "--environment", "dev",
        "build", "--release"] ∧
    PtyInvocation.argv ⟨none, none, none, fun _ => false⟩
      ⟨"/ws", "/m", .shell ⟨"dev"⟩⟩ =
      PtyInvocation.argv ⟨none, none, none, fun _ => false⟩
        ⟨"/other", "/m", .shell ⟨"dev"⟩⟩ :=
  argv_pure_and_task_concrete ⟨none, none, none, fun _ => false⟩
    ⟨none, none, none, fun _ => false⟩ "/ws" "/other" "/m"
    (.shell ⟨"dev"⟩) rfl

/-! ### Rolling buffer (pty.rs 197-201, 227, 318-332)

The `VecDeque<String>` is embedded as a `List String` whose head is the
front of the deque. Rust's `String::len` is the UTF-8 byte length,
`String.utf8ByteSize` here; `saturating_sub` on `usize` is `Nat`
subtraction. -/

/-- `PtyHandle::MAX_BUFFER_BYTES` (pty.rs 227). -/
def MAX_BUFFER_BYTES : Nat := 1024 * 1024

structure PtyBuffer where
  chunks : List String
  total_bytes : Nat
deriving DecidableEq, Repr

/-- The `while buffer.total_bytes > Self::MAX_BUFFER_BYTES` eviction loop of
`store_chunk` (pty.rs 323-330): pop whole chunks from the front, subtracting
their byte length (saturating); if the deque is somehow empty, reset the
count to 0 and stop. -/
def evictLoop (chunks : List String) (total : Nat) : List String × Nat :=
  if total ≤ MAX_BUFFER_BYTES then (chunks, total)
  else
    match chunks with
    | [] => ([], 0)
    | removed :: rest => evictLoop rest (total - removed.utf8ByteSize)

/-- `PtyHandle::store_chunk` (pty.rs 318-332): add the chunk's byte length
to the running total, push the chunk at the back, then run the eviction
loop. -/
def store_chunk (buf : PtyBuffer) (chunk : String) : PtyBuffer :=
  let total := buf.total_bytes + chunk.utf8ByteSize
  let chunks := buf.chunks ++ [chunk]
  let res := evictLoop chunks total
  ⟨res.1, res.2⟩

/-- Total UTF-8 byte length of the retained chunks. -/
def sumBytes (l : List String) : Nat := (l.map String.utf8ByteSize).sum

theorem evictLoop_le (chunks : List String) (total : Nat) :
    (evictLoop chunks total).2 ≤ MAX_BUFFER_BYTES := by
  induction chunks generalizing total with
  | nil =>
    rw [evictLoop]
    split
    · simpa using by assumption
    · simp
  | cons c rest ih =>
    rw [evictLoop]
    split
    · simpa using by assumption
    · exact ih _

theorem evictLoop_suffix (chunks : List String) (total : Nat) :
    (evictLoop chunks total).1 <:+ chunks := by
  induction chunks generalizing total with
  | nil =>
    rw [evictLoop]
    split <;> simp
  | cons c rest ih =>
    rw [evictLoop]
    split
    · simp
    · exact (ih _).trans (List.suffix_cons c rest)

theorem evictLoop_sum (chunks : List String) (total : Nat)
    (h : total = sumBytes chunks) :
    (evictLoop chunks total).2 = sumBytes (evictLoop chunks total).1 := by
  induction chunks generalizing total with
  | nil =>
    rw [evictLoop]
    split
    · simpa using h
    · simp [sumBytes]
  | cons c rest ih =>
    rw [evictLoop]
    split
    · simpa using h
    · exact ih _ (by simp [h, sumBytes, Nat.add_comm])

/-- C2: `store_chunk` keeps the running byte count equal to the byte length
of the retained chunks, bounds it by `MAX_BUFFER_BYTES` (1 MiB) after every
insertion, and its eviction removes only whole chunks from the front: the
retained chunk list after an insertion is a suffix of the previous chunk
list with the new chunk appended. -/
theorem store_chunk_bound (buf : PtyBuffer) (chunk : String)
    (h : buf.total_bytes = sumBytes buf.chunks) :
    (store_chunk buf chunk).total_bytes =
      sumBytes (store_chunk buf chunk).chunks ∧
    (store_chunk buf chunk).total_bytes ≤ MAX_BUFFER_BYTES ∧
    (store_chunk buf chunk).chunks <:+ buf.chunks ++ [chunk] := by
  refine ⟨?_, ?_, ?_⟩
  · exact evictLoop_sum _ _ (by simp [h, sumBytes])
  · exact evictLoop_le _ _
  · exact evictLoop_suffix _ _

/-- Witness for `store_chunk_bound` on a concrete buffer. -/
theorem store_chunk_bound_witness :
    (store_chunk ⟨["ab"], 2⟩ "cde").total_bytes =
      sumBytes (store_chunk ⟨["ab"], 2⟩ "cde").chunks ∧
    (store_chunk ⟨["ab"], 2⟩ "cde").total_bytes ≤ MAX_BUFFER_BYTES ∧
    (store_chunk ⟨["ab"], 2⟩ "cde").chunks <:+ ["ab"] ++ ["cde"] :=
  store_chunk_bound ⟨["ab"], 2⟩ "cde" (by decide)

/-! ### Session handle and the kill protocol (pty.rs 17-26, 151-173, 361-393)

The parts of `PtyHandle` the claims observe are embedded as plain fields:
the watch channel's current value (`exitSignal`), the presence of the
writer and master (`Option`s in the source, torn down by the exit
watcher), the rolling buffer, and the termination state. `kill` is a pure
function of the handle plus one oracle: whether the completion signal
arrives within the 5-second grace period. It returns the updated handle
and the ordered list of actions the source performs; in the source `kill`
always returns `Ok(())`, so the embedding is total. -/

inductive TerminationKind where
  | finished
  | stopped
  | killed
deriving DecidableEq, Repr

structure SessionHandle where
  id : String
  invocation : PtyInvocation
  process_id : Option Nat
  /-- Current value of the `watch` channel (`*exit_rx.borrow()`). -/
  exitSignal : Bool
  writerOpen : Bool
  masterOpen : Bool
  buffer : PtyBuffer
  termination_kind : TerminationKind
deriving DecidableEq, Repr

/-- `PtyHandle::buffered_output` (pty.rs 334-340): concatenation of the
retained chunks in order. -/
def SessionHandle.buffered_output (h : SessionHandle) : String :=
  String.join h.buffer.chunks

/-- `PtyHandle::is_running` (pty.rs 390-393): negation of the watch
channel's value. -/
def SessionHandle.is_running (h : SessionHandle) : Bool :=
  !h.exitSignal

/-- The observable actions `PtyHandle::kill` performs, in order
(pty.rs 361-388). -/
inductive KillAction where
  /-- `*self.termination_kind.lock().unwrap() = TerminationKind::Stopped` -/
  | setStopped
  /-- best-effort `self.write("\x03")`, its result discarded -/
  | writeInterrupt
  /-- `timeout(Duration::from_secs(secs), rx.wait_for(|&exited| exited))` -/
  | graceWait (secs : Nat)
  /-- `*self.termination_kind.lock().unwrap() = TerminationKind::Killed` -/
  | setKilled
  /-- `unsafe { force_kill(pid) }` -/
  | forceKillPid (pid : Nat)
  /-- final `rx.wait_for(|&exited| exited).await` with no timeout -/
  | waitIndefinite
deriving DecidableEq, Repr

/-- `PtyHandle::kill` (pty.rs 361-388). The grace wait returns within the
timeout iff the channel already reads `true` or the completion signal
arrives within the 5-second window (`exitsWithinGrace`). On timeout the
state is escalated to `Killed`, `force_kill` runs once with the captured
pid when one exists, and the final wait has no timeout. -/
def SessionHandle.kill (h : SessionHandle) (exitsWithinGrace : Bool) :
    SessionHandle × List KillAction :=
  let h1 := { h with termination_kind := TerminationKind.stopped }
  if h.exitSignal || exitsWithinGrace then
    (h1, [.setStopped, .writeInterrupt, .graceWait 5])
  else
    let h2 := { h1 with termination_kind := TerminationKind.killed }
    (h2,
      [KillAction.setStopped, .writeInterrupt, .graceWait 5, .setKilled] ++
        (match h.process_id with
         | some pid => [KillAction.forceKillPid pid]
         | none => []) ++ [KillAction.waitIndefinite])

/-- C3: `kill` on a live session first sets the termination state to
`Stopped` and best-effort writes the interrupt byte; if the completion
signal arrives within the 5-second grace period the state remains
`Stopped` and nothing further happens, otherwise the state is escalated to
`Killed`, the child is force-terminated exactly once via its captured
process id, and the kill then waits indefinitely — the final action is a
wait with no timeout, never a second timed wait. -/
theorem kill_escalation (h : SessionHandle) (pid : Nat)
    (hlive : h.exitSignal = false) (hpid : h.process_id = some pid) :
    (h.kill true).1.termination_kind = TerminationKind.stopped ∧
    (h.kill true).2 = [.setStopped, .writeInterrupt, .graceWait 5] ∧
    (h.kill false).1.termination_kind = TerminationKind.killed ∧
    (h.kill false).2 = [.setStopped, .writeInterrupt, .graceWait 5,
      .setKilled, .forceKillPid pid, .waitIndefinite] := by
  simp [SessionHandle.kill, hlive, hpid]

/-- Witness for `kill_escalation` on a concrete handle. -/
theorem kill_escalation_witness :
    ((⟨"a", ⟨"/w", "/m", .shell ⟨"dev"⟩⟩, some 7, false, true, true,
        ⟨[], 0⟩, .finished⟩ : SessionHandle).kill true).1.termination_kind =
      TerminationKind.stopped ∧
    ((⟨"a", ⟨"/w", "/m", .shell ⟨"dev"⟩⟩, some 7, false, true, true,
        ⟨[], 0⟩, .finished⟩ : SessionHandle).kill true).2 =
      [.setStopped, .writeInterrupt, .graceWait 5] ∧
    ((⟨"a", ⟨"/w", "/m", .shell ⟨"dev"⟩⟩, some 7, false, true, true,
        ⟨[], 0⟩, .finished⟩ : SessionHandle).kill false).1.termination_kind =
      TerminationKind.killed ∧
    ((⟨"a", ⟨"/w", "/m", .shell ⟨"dev"⟩⟩, some 7, false, true, true,
        ⟨[], 0⟩, .finished⟩ : SessionHandle).kill false).2 =
      [.setStopped, .writeInterrupt, .graceWait 5, .setKilled,
        .forceKillPid 7, .waitIndefinite] :=
  kill_escalation _ 7 rfl rfl

/-- C8: on a handle whose completion signal has already fired, `kill`
returns success without blocking — its behaviour is independent of the
grace oracle, i.e. the grace wait returns immediately — it never
force-kills and never enters the indefinite wait, and a second `kill` does
the same while leaving the handle state fixed. -/
theorem kill_idempotent_after_finish (h : SessionHandle) (e e2 e3 : Bool)
    (hfin : h.exitSignal = true) :
    h.kill e = h.kill e2 ∧
    (h.kill e).2 = [.setStopped, .writeInterrupt, .graceWait 5] ∧
    ((h.kill e).1.kill e3).2 = [.setStopped, .writeInterrupt, .graceWait 5] ∧
    ((h.kill e).1.kill e3).1 = (h.kill e).1 := by
  simp [SessionHandle.kill, hfin]

/-- Witness for `kill_idempotent_after_finish` on a concrete handle. -/
theorem kill_idempotent_after_finish_witness :
    (⟨"a", ⟨"/w", "/m", .shell ⟨"dev"⟩⟩, some 7, true, false, false,
        ⟨[], 0⟩, .finished⟩ : SessionHandle).kill false =
      (⟨"a", ⟨"/w", "/m", .shell ⟨"dev"⟩⟩, some 7, true, false, false,
        ⟨[], 0⟩, .finished⟩ : SessionHandle).kill true ∧
    ((⟨"a", ⟨"/w", "/m", .shell ⟨"dev"⟩⟩, some 7, true, false, false,
        ⟨[], 0⟩, .finished⟩ : SessionHandle).kill false).2 =
      [.setStopped, .writeInterrupt, .graceWait 5] ∧
    (((⟨"a", ⟨"/w", "/m", .shell ⟨"dev"⟩⟩, some 7, true, false, false,
        ⟨[], 0⟩, .finished⟩ : SessionHandle).kill false).1.kill false).2 =
      [.setStopped, .writeInterrupt, .graceWait 5] ∧
    (((⟨"a", ⟨"/w", "/m", .shell ⟨"dev"⟩⟩, some 7, true, false, false,
        ⟨[], 0⟩, .finished⟩ : SessionHandle).kill false).1.kill false).1 =
      ((⟨"a", ⟨"/w", "/m", .shell ⟨"dev"⟩⟩, some 7, true, false, false,
        ⟨[], 0⟩, .finished⟩ : SessionHandle).kill false).1 :=
  kill_idempotent_after_finish _ false false false rfl

/-! ### The registry (state.rs)

`AppState` holds two `HashMap`s behind separate `tokio::sync::Mutex`es:
the live sessions and the exit records. Each `HashMap` is embedded as an
association list with at most one entry per key; `mapInsert` replaces any
existing entry and `mapErase` removes it, matching `HashMap::insert` /
`HashMap::remove` extensionally. -/

structure PtyExitEvent where
  id : String
  invocation : PtyInvocation
  buffer : String
  exit_code : Option Nat
  signal : Option String
  success : Bool
deriving DecidableEq, Repr

def mapLookup {α : Type} : List (String × α) → String → Option α
  | [], _ => none
  | p :: rest, k => if p.1 = k then some p.2 else mapLookup rest k

def mapErase {α : Type} : List (String × α) → String → List (String × α)
  | [], _ => []
  | p :: rest, k =>
    if p.1 = k then mapErase rest k else p :: mapErase rest k

def mapInsert {α : Type} (m : List (String × α)) (k : String) (v : α) :
    List (String × α) :=
  (k, v) :: mapErase m k

/-- The keys of an association list, with multiplicity. -/
def mapKeys {α : Type} (m : List (String × α)) : List String :=
  m.map Prod.fst

theorem mapLookup_erase_self {α : Type} (m : List (String × α))
    (k : String) : mapLookup (mapErase m k) k = none := by
  induction m with
  | nil => rfl
  | cons p rest ih =>
    rw [mapErase]
    split
    · exact ih
    · rw [mapLookup]
      split
      · exact absurd (by assumption) (by assumption)
      · exact ih

theorem mapLookup_erase_ne {α : Type} (m : List (String × α))
    (k k2 : String) (h : k ≠ k2) :
    mapLookup (mapErase m k) k2 = mapLookup m k2 := by
  induction m with
  | nil => rfl
  | cons p rest ih =>
    by_cases hp : p.1 = k
    · have hp2 : ¬p.1 = k2 := fun hh => h (hp.symm.trans hh)
      simp [mapErase, mapLookup, hp, hp2, ih, h]
    · by_cases hq : p.1 = k2
      · simp [mapErase, mapLookup, hp, hq, Ne.symm h]
      · simp [mapErase, mapLookup, hp, hq, ih]

theorem mapLookup_insert_self {α : Type} (m : List (String × α))
    (k : String) (v : α) : mapLookup (mapInsert m k v) k = some v := by
  rw [mapInsert, mapLookup]
  simp

theorem mapLookup_insert_ne {α : Type} (m : List (String × α))
    (k k2 : String) (v : α) (h : k ≠ k2) :
    mapLookup (mapInsert m k v) k2 = mapLookup m k2 := by
  rw [mapInsert, mapLookup]
  split
  · exact absurd (by assumption) h
  · exact mapLookup_erase_ne m k k2 h

theorem mapKeys_erase_sublist {α : Type} (m : List (String × α))
    (k : String) : (mapKeys (mapErase m k)).Sublist (mapKeys m) := by
  induction m with
  | nil => exact List.Sublist.refl _
  | cons p rest ih =>
    rw [mapErase]
    split
    · exact ih.trans (List.sublist_cons_self p.1 (mapKeys rest))
    · exact List.Sublist.cons₂ p.1 ih

theorem mapKeys_erase_not_mem {α : Type} (m : List (String × α))
    (k : String) : k ∉ mapKeys (mapErase m k) := by
  induction m with
  | nil => simp [mapKeys, mapErase]
  | cons p rest ih =>
    rw [mapErase]
    split
    · exact ih
    · intro hmem
      rcases (List.mem_cons).1 hmem with h1 | h2
      · exact (by assumption : ¬p.1 = k) h1.symm
      · exact ih h2

theorem mapKeys_insert_nodup {α : Type} (m : List (String × α))
    (k : String) (v : α) (h : (mapKeys m).Nodup) :
    (mapKeys (mapInsert m k v)).Nodup := by
  rw [mapInsert]
  refine List.Nodup.cons (mapKeys_erase_not_mem m k) ?_
  exact List.Sublist.nodup (mapKeys_erase_sublist m k) h

/-- `AppState` (state.rs 9-14), restricted to the two PTY maps the claims
are about (the file watcher is unrelated state). -/
structure AppState where
  ptys : List (String × SessionHandle)
  exited_ptys : List (String × PtyExitEvent)
deriving DecidableEq, Repr

/-- `AppState::pty` (state.rs 17-19). -/
def AppState.pty (s : AppState) (id : String) : Option SessionHandle :=
  mapLookup s.ptys id

/-- `AppState::exit_event` (state.rs 48-50). -/
def AppState.exit_event (s : AppState) (id : String) : Option PtyExitEvent :=
  mapLookup s.exited_ptys id

/-- `AppState::add_pty` (state.rs 25-35): if the id is already live, warn
and return with the state untouched; otherwise insert the session and
clear any saved exit event from a previous run. -/
def AppState.add_pty (s : AppState) (id : String) (pty : SessionHandle) :
    AppState :=
  if (mapLookup s.ptys id).isSome then s
  else
    { ptys := mapInsert s.ptys id pty,
      exited_ptys := mapErase s.exited_ptys id }

/-- First half of `AppState::remove_pty` (state.rs 40-43): the insertion
into `exited_ptys` under its own lock. The state after this step and
before `removeEraseLive` is observable by concurrent `pty` /
`exit_event` calls, since the two maps are behind separate locks. -/
def AppState.removeInsertExited (s : AppState) (id : String)
    (exit_event : PtyExitEvent) : AppState :=
  { s with exited_ptys := mapInsert s.exited_ptys id exit_event }

/-- Second half of `AppState::remove_pty` (state.rs 45): the removal from
`ptys` under its own lock. -/
def AppState.removeEraseLive (s : AppState) (id : String) : AppState :=
  { s with ptys := mapErase s.ptys id }

/-- `AppState::remove_pty` (state.rs 37-46): insert the exit record first,
then remove the live entry. -/
def AppState.remove_pty (s : AppState) (id : String)
    (exit_event : PtyExitEvent) : AppState :=
  (s.removeInsertExited id exit_event).removeEraseLive id

/-! ### Command layer (pty.rs 395-586)

The tauri commands, embedded as functions of the registry state. `write`
and `resize` succeed or fail depending on whether the writer / master is
still present (pty.rs 288-299, 342-359); their I/O effect is outside the
claims. -/

inductive CmdError where
  /-- `require_pty`: PTY not found (pty.rs 565-573). -/
  | notFound (id : String)
  /-- `PtyHandle::write`: "PTY writer closed" (pty.rs 291-293). -/
  | writerClosed
  /-- `PtyHandle::resize`: "PTY master closed" (pty.rs 345-347). -/
  | masterClosed
deriving DecidableEq, Repr

/-- `require_pty` (pty.rs 565-573). -/
def require_pty (s : AppState) (id : String) :
    Except CmdError SessionHandle :=
  match s.pty id with
  | some pty => Except.ok pty
  | none => Except.error (CmdError.notFound id)

/-- `PtyHandle::write` (pty.rs 288-299), reduced to its failure behaviour:
errors iff the writer has been torn down. -/
def SessionHandle.write (h : SessionHandle) (_data : String) :
    Except CmdError Unit :=
  if h.writerOpen then Except.ok () else Except.error CmdError.writerClosed

/-- `PtyHandle::resize` (pty.rs 342-359), reduced to its failure
behaviour: errors iff the master has been torn down. -/
def SessionHandle.resize (h : SessionHandle) (_cols _rows : Nat) :
    Except CmdError Unit :=
  if h.masterOpen then Except.ok () else Except.error CmdError.masterClosed

/-- `pty_write` (pty.rs 518-527). -/
def pty_write (s : AppState) (id : String) (data : String) :
    Except CmdError Unit := do
  let pty ← require_pty s id
  pty.write data

/-- `pty_resize` (pty.rs 529-539). -/
def pty_resize (s : AppState) (id : String) (cols rows : Nat) :
    Except CmdError Unit := do
  let pty ← require_pty s id
  pty.resize cols rows

/-- `pty_kill` (pty.rs 558-563); the handle-level kill is the pure
function `SessionHandle.kill`. -/
def pty_kill (s : AppState) (id : String) (exitsWithinGrace : Bool) :
    Except CmdError (SessionHandle × List KillAction) := do
  let pty ← require_pty s id
  Except.ok (pty.kill exitsWithinGrace)

/-- `pty_is_running` (pty.rs 575-581): unknown id answers `Ok(false)`
rather than an error. -/
def pty_is_running (s : AppState) (id : String) : Except CmdError Bool :=
  match s.pty id with
  | none => Except.ok false
  | some pty => Except.ok pty.is_running

/-- `pty_get_buffer` (pty.rs 541-556): live buffer, else the persisted
exit-record buffer, else the empty string. -/
def pty_get_buffer (s : AppState) (id : String) : String :=
  match s.pty id with
  | some pty => pty.buffered_output
  | none =>
    match s.exit_event id with
    | some record => record.buffer
    | none => ""

/-! ### Session creation (pty.rs 229-286, 395-423)

`PtyHandle::new` performs four fallible OS interactions: `openpty`,
`spawn_command`, `take_writer`, `try_clone_reader`. Their outcomes are
reified as a `CreateOutcome` oracle; on success the resulting handle is a
parameter. `pty_create` propagates a failure of `PtyHandle::new` with `?`
before touching the registry and before emitting any event; the reader and
exit-watcher threads (whose events are modelled by `OStep` below) are only
spawned on the success path. -/

inductive CreateOutcome where
  | ok
  | ptyOpenFailed
  | spawnFailed
  | writerAcquisitionFailed
  | readerAcquisitionFailed
deriving DecidableEq, Repr

inductive CreateError where
  /-- "failed to open PTY" (pty.rs 243-245). -/
  | ptyOpenFailed
  /-- "failed to spawn PTY command" (pty.rs 252-255). -/
  | spawnFailed
  /-- "failed to acquire PTY writer" / "failed to clone PTY reader"
  (pty.rs 260-265). -/
  | streamAcquisitionFailed
deriving DecidableEq, Repr

/-- Events emitted synchronously by `pty_create` itself (the `pty-start`
emission, pty.rs 414-423). -/
inductive CreateEvent where
  | start (id : String) (invocation : PtyInvocation)
deriving DecidableEq, Repr

/-- The synchronous part of `pty_create` (pty.rs 395-423): construct the
handle (oracle `outcome`), register it via `add_pty`, emit `pty-start`,
return `Ok`. On a construction failure the error is returned at once:
the registry is untouched and nothing is emitted. -/
def pty_create (s : AppState) (id : String) (invocation : PtyInvocation)
    (outcome : CreateOutcome) (handle : SessionHandle) :
    Except CreateError Unit × AppState × List CreateEvent :=
  match outcome with
  | CreateOutcome.ptyOpenFailed => (Except.error CreateError.ptyOpenFailed, s, [])
  | CreateOutcome.spawnFailed => (Except.error CreateError.spawnFailed, s, [])
  | CreateOutcome.writerAcquisitionFailed =>
    (Except.error CreateError.streamAcquisitionFailed, s, [])
  | CreateOutcome.readerAcquisitionFailed =>
    (Except.error CreateError.streamAcquisitionFailed, s, [])
  | CreateOutcome.ok =>
    (Except.ok (), s.add_pty id handle, [CreateEvent.start id invocation])

/-- C9: when session creation fails (pty open, spawn, or writer/reader
acquisition), `pty_create` returns an error immediately, emits no events,
and leaves the registry — both maps — unchanged. -/
theorem create_failure_no_partial_session (s : AppState) (id : String)
    (inv : PtyInvocation) (outcome : CreateOutcome) (handle : SessionHandle)
    (hfail : outcome ≠ CreateOutcome.ok) :
    (∃ e, (pty_create s id inv outcome handle).1 = Except.error e) ∧
    (pty_create s id inv outcome handle).2.1 = s ∧
    (pty_create s id inv outcome handle).2.2 = [] := by
  cases outcome with
  | ok => exact absurd rfl hfail
  | ptyOpenFailed => exact ⟨⟨CreateError.ptyOpenFailed, rfl⟩, rfl, rfl⟩
  | spawnFailed => exact ⟨⟨CreateError.spawnFailed, rfl⟩, rfl, rfl⟩
  | writerAcquisitionFailed =>
    exact ⟨⟨CreateError.streamAcquisitionFailed, rfl⟩, rfl, rfl⟩
  | readerAcquisitionFailed =>
    exact ⟨⟨CreateError.streamAcquisitionFailed, rfl⟩, rfl, rfl⟩

/-- Witness for `create_failure_no_partial_session` on a concrete failing
creation. -/
theorem create_failure_no_partial_session_witness :
    (∃ e, (pty_create ⟨[], []⟩ "a" ⟨"/w", "/m", .shell ⟨"dev"⟩⟩
      CreateOutcome.spawnFailed
      ⟨"a", ⟨"/w", "/m", .shell ⟨"dev"⟩⟩, some 7, false, true, true,
        ⟨[], 0⟩, .finished⟩).1 = Except.error e) ∧
    (pty_create ⟨[], []⟩ "a" ⟨"/w", "/m", .shell ⟨"dev"⟩⟩
      CreateOutcome.spawnFailed
      ⟨"a", ⟨"/w", "/m", .shell ⟨"dev"⟩⟩, some 7, false, true, true,
        ⟨[], 0⟩, .finished⟩).2.1 = ⟨[], []⟩ ∧
    (pty_create ⟨[], []⟩ "a" ⟨"/w", "/m", .shell ⟨"dev"⟩⟩
      CreateOutcome.spawnFailed
      ⟨"a", ⟨"/w", "/m", .shell ⟨"dev"⟩⟩, some 7, false, true, true,
        ⟨[], 0⟩, .finished⟩).2.2 = [] :=
  create_failure_no_partial_session ⟨[], []⟩ "a" ⟨"/w", "/m", .shell ⟨"dev"⟩⟩
    CreateOutcome.spawnFailed
    ⟨"a", ⟨"/w", "/m", .shell ⟨"dev"⟩⟩, some 7, false, true, true,
      ⟨[], 0⟩, .finished⟩ (by simp)

/-- C10: `pty_is_running` on an id with no live session answers
`Ok(false)` rather than a `NotFound` error, while `pty_write`,
`pty_resize` and `pty_kill` all fail with `NotFound` on that same id; in
particular a session that has been moved to the exit-record map by
`remove_pty` reports `Ok(false)`. -/
theorem is_running_false_not_error (s v : AppState) (id d : String)
    (cols rows : Nat) (e : Bool) (ev : PtyExitEvent)
    (hnone : s.pty id = none) :
    pty_is_running s id = Except.ok false ∧
    pty_write s id d = Except.error (CmdError.notFound id) ∧
    pty_resize s id cols rows = Except.error (CmdError.notFound id) ∧
    pty_kill s id e = Except.error (CmdError.notFound id) ∧
    pty_is_running (v.remove_pty id ev) id = Except.ok false := by
  have hv : (v.remove_pty id ev).pty id = none := by
    rw [AppState.remove_pty]
    exact mapLookup_erase_self _ id
  refine ⟨?_, ?_, ?_, ?_, ?_⟩
  · rw [pty_is_running, hnone]
  · rw [pty_write, require_pty, hnone]
    rfl
  · rw [pty_resize, require_pty, hnone]
    rfl
  · rw [pty_kill, require_pty, hnone]
    rfl
  · rw [pty_is_running, hv]

/-- Witness for `is_running_false_not_error` on the empty registry. -/
theorem is_running_false_not_error_witness :
    pty_is_running ⟨[], []⟩ "a" = Except.ok false ∧
    pty_write ⟨[], []⟩ "a" "x" = Except.error (CmdError.notFound "a") ∧
    pty_resize ⟨[], []⟩ "a" 80 24 = Except.error (CmdError.notFound "a") ∧
    pty_kill ⟨[], []⟩ "a" true = Except.error (CmdError.notFound "a") ∧
    pty_is_running
      ((⟨[], []⟩ : AppState).remove_pty "a"
        ⟨"a", ⟨"/w", "/m", .shell ⟨"dev"⟩⟩, "", some 0, none, true⟩) "a" =
      Except.ok false :=
  is_running_false_not_error ⟨[], []⟩ ⟨[], []⟩ "a" "x" 80 24 true
    ⟨"a", ⟨"/w", "/m", .shell ⟨"dev"⟩⟩, "", some 0, none, true⟩ rfl

/-- C7: `pty_get_buffer` returns the live session's buffered output when
the id is live, falls back to the persisted exit record's buffer when the
session is no longer live, and returns the empty string when neither
exists; after `remove_pty` stores the exit record it returns exactly that
record's buffer (the same bytes the exit event carries), and once a new
session is added under the same id the old record is discarded — the query
then answers with the new session's buffer and the old record is gone. -/
theorem get_buffer_fallback (s t u v : AppState) (id : String)
    (h newH : SessionHandle) (r ev : PtyExitEvent)
    (hlive : s.pty id = some h)
    (hdead : t.pty id = none) (hrec : t.exit_event id = some r)
    (hno1 : u.pty id = none) (hno2 : u.exit_event id = none) :
    pty_get_buffer s id = h.buffered_output ∧
    pty_get_buffer t id = r.buffer ∧
    pty_get_buffer u id = "" ∧
    pty_get_buffer (v.remove_pty id ev) id = ev.buffer ∧
    pty_get_buffer ((v.remove_pty id ev).add_pty id newH) id =
      newH.buffered_output ∧
    ((v.remove_pty id ev).add_pty id newH).exit_event id = none := by
  have hrl : (v.remove_pty id ev).pty id = none := by
    rw [AppState.remove_pty]
    exact mapLookup_erase_self _ id
  have hre : (v.remove_pty id ev).exit_event id = some ev := by
    rw [AppState.remove_pty, AppState.removeEraseLive, AppState.exit_event]
    exact mapLookup_insert_self _ id ev
  have hadd : (v.remove_pty id ev).add_pty id newH =
      { ptys := mapInsert (v.remove_pty id ev).ptys id newH,
        exited_ptys := mapErase (v.remove_pty id ev).exited_ptys id } := by
    rw [AppState.add_pty]
    simp [AppState.pty] at hrl
    simp [AppState.pty, hrl]
  refine ⟨?_, ?_, ?_, ?_, ?_, ?_⟩
  · rw [pty_get_buffer, hlive]
  · rw [pty_get_buffer, hdead, hrec]
  · rw [pty_get_buffer, hno1, hno2]
  · rw [pty_get_buffer, hrl, hre]
  · rw [pty_get_buffer, hadd]
    show (match mapLookup (mapInsert (v.remove_pty id ev).ptys id newH) id
      with
      | some pty => pty.buffered_output
      | none => _) = newH.buffered_output
    rw [mapLookup_insert_self]
  · rw [hadd, AppState.exit_event]
    exact mapLookup_erase_self _ id

/-- Witness for `get_buffer_fallback` on concrete registry states. -/
theorem get_buffer_fallback_witness :
    pty_get_buffer
      ⟨[("a", ⟨"a", ⟨"/w", "/m", .shell ⟨"dev"⟩⟩, some 7, false, true, true,
        ⟨["hi"], 2⟩, .finished⟩)], []⟩ "a" =
      SessionHandle.buffered_output
        ⟨"a", ⟨"/w", "/m", .shell ⟨"dev"⟩⟩, some 7, false, true, true,
          ⟨["hi"], 2⟩, .finished⟩ ∧
    pty_get_buffer
      ⟨[], [("a", ⟨"a", ⟨"/w", "/m", .shell ⟨"dev"⟩⟩, "old", some 0, none,
        true⟩)]⟩ "a" = "old" ∧
    pty_get_buffer ⟨[], []⟩ "a" = "" ∧
    pty_get_buffer
      ((⟨[], []⟩ : AppState).remove_pty "a"
        ⟨"a", ⟨"/w", "/m", .shell ⟨"dev"⟩⟩, "final", some 0, none, true⟩)
      "a" = "final" ∧
    pty_get_buffer
      (((⟨[], []⟩ : AppState).remove_pty "a"
        ⟨"a", ⟨"/w", "/m", .shell ⟨"dev"⟩⟩, "final", some 0, none,
          true⟩).add_pty "a"
        ⟨"a", ⟨"/w", "/m", .shell ⟨"dev"⟩⟩, some 9, false, true, true,
          ⟨[], 0⟩, .finished⟩) "a" =
      SessionHandle.buffered_output
        ⟨"a", ⟨"/w", "/m", .shell ⟨"dev"⟩⟩, some 9, false, true, true,
          ⟨[], 0⟩, .finished⟩ ∧
    (((⟨[], []⟩ : AppState).remove_pty "a"
        ⟨"a", ⟨"/w", "/m", .shell ⟨"dev"⟩⟩, "final", some 0, none,
          true⟩).add_pty "a"
        ⟨"a", ⟨"/w", "/m", .shell ⟨"dev"⟩⟩, some 9, false, true, true,
          ⟨[], 0⟩, .finished⟩).exit_event "a" = none :=
  get_buffer_fallback
    ⟨[("a", ⟨"a", ⟨"/w", "/m", .shell ⟨"dev"⟩⟩, some 7, false, true, true,
      ⟨["hi"], 2⟩, .finished⟩)], []⟩
    ⟨[], [("a", ⟨"a", ⟨"/w", "/m", .shell ⟨"dev"⟩⟩, "old", some 0, none,
      true⟩)]⟩
    ⟨[], []⟩ ⟨[], []⟩ "a"
    ⟨"a", ⟨"/w", "/m", .shell ⟨"dev"⟩⟩, some 7, false, true, true,
      ⟨["hi"], 2⟩, .finished⟩
    ⟨"a", ⟨"/w", "/m", .shell ⟨"dev"⟩⟩, some 9, false, true, true,
      ⟨[], 0⟩, .finished⟩
    ⟨"a", ⟨"/w", "/m", .shell ⟨"dev"⟩⟩, "old", some 0, none, true⟩
    ⟨"a", ⟨"/w", "/m", .shell ⟨"dev"⟩⟩, "final", some 0, none, true⟩
    (by decide) (by decide) (by decide) (by decide) (by decide)

/-- C4 counterexample: requesting creation of a session whose id is
already live does not fail — at this concrete input `pty_create` returns
`Ok(())`, so no `Conflict` error is surfaced to the caller. -/
theorem create_conflict_returns_ok :
    (pty_create
      ⟨[("a", ⟨"a", ⟨"/w", "/m", .shell ⟨"dev"⟩⟩, some 7, false, true, true,
        ⟨[], 0⟩, .finished⟩)], []⟩
      "a" ⟨"/w", "/m", .shell ⟨"dev"⟩⟩ CreateOutcome.ok
      ⟨"a", ⟨"/w", "/m", .shell ⟨"dev"⟩⟩, some 9, false, true, true,
        ⟨[], 0⟩, .finished⟩).1 = Except.ok () := rfl

/-- C4 (amended): requesting creation of a session whose id is already
live does not surface an error: `pty_create` returns `Ok(())`, the
registry's `add_pty` logs a warning and leaves both maps untouched (the
existing session is kept, the new handle is never registered, and the
stale exit record is not cleared in this case), and the `pty-start` event
is still emitted. The live map never holds two sessions under the same id
(`add_pty` preserves key uniqueness), and a successful add of a fresh id
registers the new session and clears any stale exit record under that
id. -/
theorem create_conflict_behaviour (s t u : AppState) (id : String)
    (inv : PtyInvocation) (newH old : SessionHandle)
    (hlive : s.pty id = some old)
    (hfresh : t.pty id = none)
    (hnod : (mapKeys u.ptys).Nodup) :
    pty_create s id inv CreateOutcome.ok newH =
      (Except.ok (), s, [CreateEvent.start id inv]) ∧
    (mapKeys (u.add_pty id newH).ptys).Nodup ∧
    (t.add_pty id newH).pty id = some newH ∧
    (t.add_pty id newH).exit_event id = none := by
  refine ⟨?_, ?_, ?_, ?_⟩
  · rw [pty_create, AppState.add_pty]
    simp [AppState.pty] at hlive
    simp [AppState.pty, hlive]
  · rw [AppState.add_pty]
    split
    · exact hnod
    · exact mapKeys_insert_nodup _ id newH hnod
  · rw [AppState.add_pty]
    simp [AppState.pty] at hfresh
    simp [AppState.pty, hfresh]
    exact mapLookup_insert_self _ id newH
  · rw [AppState.add_pty]
    simp [AppState.pty] at hfresh
    simp [AppState.pty, hfresh, AppState.exit_event]
    exact mapLookup_erase_self _ id

/-- Witness for `create_conflict_behaviour` on concrete registry
states. -/
theorem create_conflict_behaviour_witness :
    pty_create
      ⟨[("a", ⟨"a", ⟨"/w", "/m", .shell ⟨"dev"⟩⟩, some 7, false, true, true,
        ⟨[], 0⟩, .finished⟩)], []⟩
      "a" ⟨"/w", "/m", .shell ⟨"dev"⟩⟩ CreateOutcome.ok
      ⟨"b", ⟨"/w", "/m", .shell ⟨"dev"⟩⟩, some 9, false, true, true,
        ⟨[], 0⟩, .finished⟩ =
      (Except.ok (),
        ⟨[("a", ⟨"a", ⟨"/w", "/m", .shell ⟨"dev"⟩⟩, some 7, false, true,
          true, ⟨[], 0⟩, .finished⟩)], []⟩,
        [CreateEvent.start "a" ⟨"/w", "/m", .shell ⟨"dev"⟩⟩]) ∧
    (mapKeys
      (AppState.add_pty
        ⟨[("a", ⟨"a", ⟨"/w", "/m", .shell ⟨"dev"⟩⟩, some 7, false, true,
          true, ⟨[], 0⟩, .finished⟩)], []⟩ "a"
        ⟨"b", ⟨"/w", "/m", .shell ⟨"dev"⟩⟩, some 9, false, true, true,
          ⟨[], 0⟩, .finished⟩).ptys).Nodup ∧
    (AppState.add_pty
      ⟨[], [("a", ⟨"a", ⟨"/w", "/m", .shell ⟨"dev"⟩⟩, "old", some 0, none,
        true⟩)]⟩ "a"
      ⟨"b", ⟨"/w", "/m", .shell ⟨"dev"⟩⟩, some 9, false, true, true,
        ⟨[], 0⟩, .finished⟩).pty "a" =
      some ⟨"b", ⟨"/w", "/m", .shell ⟨"dev"⟩⟩, some 9, false, true, true,
        ⟨[], 0⟩, .finished⟩ ∧
    (AppState.add_pty
      ⟨[], [("a", ⟨"a", ⟨"/w", "/m", .shell ⟨"dev"⟩⟩, "old", some 0, none,
        true⟩)]⟩ "a"
      ⟨"b", ⟨"/w", "/m", .shell ⟨"dev"⟩⟩, some 9, false, true, true,
        ⟨[], 0⟩, .finished⟩).exit_event "a" = none :=
  create_conflict_behaviour
    ⟨[("a", ⟨"a", ⟨"/w", "/m", .shell ⟨"dev"⟩⟩, some 7, false, true, true,
      ⟨[], 0⟩, .finished⟩)], []⟩
    ⟨[], [("a", ⟨"a", ⟨"/w", "/m", .shell ⟨"dev"⟩⟩, "old", some 0, none,
      true⟩)]⟩
    ⟨[("a", ⟨"a", ⟨"/w", "/m", .shell ⟨"dev"⟩⟩, some 7, false, true, true,
      ⟨[], 0⟩, .finished⟩)], []⟩
    "a" ⟨"/w", "/m", .shell ⟨"dev"⟩⟩
    ⟨"b", ⟨"/w", "/m", .shell ⟨"dev"⟩⟩, some 9, false, true, true,
      ⟨[], 0⟩, .finished⟩
    ⟨"a", ⟨"/w", "/m", .shell ⟨"dev"⟩⟩, some 7, false, true, true,
      ⟨[], 0⟩, .finished⟩
    (by decide) (by decide) (by decide)

/-! ### Reader loop and exit watcher (pty.rs 425-513)

The two per-session threads are embedded as a small-step transition system
over `OrchState`, starting at the point where the child has exited (the
watcher has returned from `child.wait()` and closed the writer/master, so
the reader sees a bounded list of remaining chunks and then end-of-stream).

The reader loop (pty.rs 433-453) emits one `pty-data` event per chunk in
the order read, then sends the reader-done marker. The watcher
(pty.rs 457-513) blocks on `reader_done_rx.recv()`, then in order: stores
and emits the termination banner as a final `pty-data` event, inserts the
exit record into `exited_ptys` and removes the session from `ptys` (the
two halves of `remove_pty`), emits `pty-exit`, and finally fires the
completion signal. Every interleaving the synchronisation allows is a
derivation of `OStep`; the only cross-thread constraint is that
`reader_done_rx.recv()` returns only after the reader's marker is sent. -/

inductive OEvent where
  /-- a `pty-data` emission -/
  | data (chunk : String)
  /-- first half of `remove_pty`: the exit record is inserted -/
  | insertRecord
  /-- second half of `remove_pty`: the live entry is removed -/
  | eraseLive
  /-- the `pty-exit` emission -/
  | exitEmit
  /-- `exit_tx.send(true)` -/
  | signalSent
deriving DecidableEq, Repr

inductive WatcherPC where
  /-- blocked in `reader_done_rx.recv()` -/
  | waitReader
  /-- about to store and emit the termination banner -/
  | banner
  /-- about to insert the exit record into `exited_ptys` -/
  | insertRec
  /-- about to remove the session from `ptys` -/
  | eraseRec
  /-- about to emit `pty-exit` -/
  | emitExit
  /-- about to fire the completion signal -/
  | sendSignal
  /-- watcher thread finished -/
  | finished
deriving DecidableEq, Repr

structure OrchState where
  /-- chunks the reader loop has not yet read, in stream order -/
  pending : List String
  /-- has the reader loop sent the reader-done marker -/
  readerDone : Bool
  /-- program counter of the exit watcher -/
  watcher : WatcherPC
deriving DecidableEq, Repr

/-- One interleaved step of the reader loop or of the exit watcher, with
the event it emits (`none` for steps that emit nothing). -/
inductive OStep (banner : String) :
    OrchState → Option OEvent → OrchState → Prop where
  | readChunk (c : String) (rest : List String) (w : WatcherPC) :
      OStep banner ⟨c :: rest, false, w⟩ (some (OEvent.data c))
        ⟨rest, false, w⟩
  | readerFinish (w : WatcherPC) :
      OStep banner ⟨[], false, w⟩ none ⟨[], true, w⟩
  | watcherWake (p : List String) :
      OStep banner ⟨p, true, WatcherPC.waitReader⟩ none
        ⟨p, true, WatcherPC.banner⟩
  | watcherBanner (p : List String) (d : Bool) :
      OStep banner ⟨p, d, WatcherPC.banner⟩ (some (OEvent.data banner))
        ⟨p, d, WatcherPC.insertRec⟩
  | watcherInsert (p : List String) (d : Bool) :
      OStep banner ⟨p, d, WatcherPC.insertRec⟩ (some OEvent.insertRecord)
        ⟨p, d, WatcherPC.eraseRec⟩
  | watcherErase (p : List String) (d : Bool) :
      OStep banner ⟨p, d, WatcherPC.eraseRec⟩ (some OEvent.eraseLive)
        ⟨p, d, WatcherPC.emitExit⟩
  | watcherEmitExit (p : List String) (d : Bool) :
      OStep banner ⟨p, d, WatcherPC.emitExit⟩ (some OEvent.exitEmit)
        ⟨p, d, WatcherPC.sendSignal⟩
  | watcherSignal (p : List String) (d : Bool) :
      OStep banner ⟨p, d, WatcherPC.sendSignal⟩ (some OEvent.signalSent)
        ⟨p, d, WatcherPC.finished⟩

/-- A finite run of the two threads, collecting the emitted events. -/
inductive ORun (banner : String) :
    OrchState → List OEvent → OrchState → Prop where
  | done (s : OrchState) : ORun banner s [] s
  | stepEv (s s2 s3 : OrchState) (e : OEvent) (tr : List OEvent) :
      OStep banner s (some e) s2 → ORun banner s2 tr s3 →
      ORun banner s (e :: tr) s3
  | stepTau (s s2 s3 : OrchState) (tr : List OEvent) :
      OStep banner s none s2 → ORun banner s2 tr s3 →
      ORun banner s tr s3

/-- The events the watcher will still emit from a given program point. -/
def watcherTrail (banner : String) : WatcherPC → List OEvent
  | WatcherPC.waitReader =>
    [OEvent.data banner, OEvent.insertRecord, OEvent.eraseLive,
      OEvent.exitEmit, OEvent.signalSent]
  | WatcherPC.banner =>
    [OEvent.data banner, OEvent.insertRecord, OEvent.eraseLive,
      OEvent.exitEmit, OEvent.signalSent]
  | WatcherPC.insertRec =>
    [OEvent.insertRecord, OEvent.eraseLive, OEvent.exitEmit,
      OEvent.signalSent]
  | WatcherPC.eraseRec =>
    [OEvent.eraseLive, OEvent.exitEmit, OEvent.signalSent]
  | WatcherPC.emitExit => [OEvent.exitEmit, OEvent.signalSent]
  | WatcherPC.sendSignal => [OEvent.signalSent]
  | WatcherPC.finished => []

/-- The full event sequence any complete run starting at `s` emits. -/
def expectedTrace (banner : String) (s : OrchState) : List OEvent :=
  s.pending.map OEvent.data ++ watcherTrail banner s.watcher

/-- States reachable from a session start: the done marker is only sent
once the reader has drained its chunks, and the watcher only advances past
`recv()` once the marker is sent. -/
def OrchGood (s : OrchState) : Prop :=
  (s.readerDone = true → s.pending = []) ∧
  (s.watcher ≠ WatcherPC.waitReader → s.readerDone = true)

theorem ostep_good (banner : String) (s s2 : OrchState) (e : Option OEvent)
    (h : OStep banner s e s2) (hg : OrchGood s) : OrchGood s2 := by
  obtain ⟨hg1, hg2⟩ := hg
  cases h with
  | readChunk c rest w =>
    exact ⟨fun hh => by simp at hh, fun hh => by
      have := hg2 hh
      simp at this⟩
  | readerFinish w => exact ⟨fun _ => rfl, fun _ => rfl⟩
  | watcherWake p => exact ⟨hg1, fun _ => rfl⟩
  | watcherBanner p d => exact ⟨hg1, fun _ => hg2 (by simp)⟩
  | watcherInsert p d => exact ⟨hg1, fun _ => hg2 (by simp)⟩
  | watcherErase p d => exact ⟨hg1, fun _ => hg2 (by simp)⟩
  | watcherEmitExit p d => exact ⟨hg1, fun _ => hg2 (by simp)⟩
  | watcherSignal p d => exact ⟨hg1, fun _ => hg2 (by simp)⟩

/-- Trace determinacy, generalised over the final state so that induction
on the run is available. -/
theorem orun_trace_aux (banner : String) (s : OrchState) (tr : List OEvent)
    (sf : OrchState) (h : ORun banner s tr sf) :
    sf = ⟨[], true, WatcherPC.finished⟩ → OrchGood s →
      tr = expectedTrace banner s := by
  induction h with
  | done s =>
    intro heq _
    subst heq
    rfl
  | stepEv s s2 s3 e tr hstep hrun ih =>
    intro heq hg
    have htr := ih heq (ostep_good banner s s2 _ hstep hg)
    cases hstep with
    | readChunk c rest w =>
      subst htr
      simp [expectedTrace]
    | watcherBanner p d =>
      have hd : d = true := hg.2 (by simp)
      subst hd
      have hp : p = [] := hg.1 rfl
      subst hp
      subst htr
      simp [expectedTrace, watcherTrail]
    | watcherInsert p d =>
      have hd : d = true := hg.2 (by simp)
      subst hd
      have hp : p = [] := hg.1 rfl
      subst hp
      subst htr
      simp [expectedTrace, watcherTrail]
    | watcherErase p d =>
      have hd : d = true := hg.2 (by simp)
      subst hd
      have hp : p = [] := hg.1 rfl
      subst hp
      subst htr
      simp [expectedTrace, watcherTrail]
    | watcherEmitExit p d =>
      have hd : d = true := hg.2 (by simp)
      subst hd
      have hp : p = [] := hg.1 rfl
      subst hp
      subst htr
      simp [expectedTrace, watcherTrail]
    | watcherSignal p d =>
      have hd : d = true := hg.2 (by simp)
      subst hd
      have hp : p = [] := hg.1 rfl
      subst hp
      subst htr
      simp [expectedTrace, watcherTrail]
  | stepTau s s2 s3 tr hstep hrun ih =>
    intro heq hg
    have htr := ih heq (ostep_good banner s s2 _ hstep hg)
    cases hstep with
    | readerFinish w =>
      subst htr
      simp [expectedTrace]
    | watcherWake p =>
      have hp : p = [] := hg.1 rfl
      subst hp
      subst htr
      simp [expectedTrace, watcherTrail]

/-- C5: in every complete run of a session's reader loop and exit watcher,
the data events preserve the order the chunks were read (FIFO, no
reordering), the termination banner is the final data event, and the
single exit event comes strictly after every data event — the complete
trace is exactly the read chunks in order, then the banner data event,
then the registry migration, the exit event, and the completion signal. -/
theorem data_events_before_exit (banner : String) (chunks : List String)
    (tr : List OEvent)
    (h : ORun banner ⟨chunks, false, WatcherPC.waitReader⟩ tr
      ⟨[], true, WatcherPC.finished⟩) :
    tr = chunks.map OEvent.data ++
      [OEvent.data banner, OEvent.insertRecord, OEvent.eraseLive,
        OEvent.exitEmit, OEvent.signalSent] := by
  have hg : OrchGood ⟨chunks, false, WatcherPC.waitReader⟩ :=
    ⟨fun hh => by simp at hh, fun hh => absurd rfl hh⟩
  have := orun_trace_aux banner _ tr _ h rfl hg
  simpa [expectedTrace, watcherTrail] using this

/-- Witness for `data_events_before_exit` on a concrete complete run. -/
theorem data_events_before_exit_witness :
    ([OEvent.data "x", OEvent.data "B", OEvent.insertRecord,
      OEvent.eraseLive, OEvent.exitEmit, OEvent.signalSent] :
        List OEvent) =
      (["x"].map OEvent.data) ++
        [OEvent.data "B", OEvent.insertRecord, OEvent.eraseLive,
          OEvent.exitEmit, OEvent.signalSent] :=
  data_events_before_exit "B" ["x"] _
    (ORun.stepEv _ _ _ _ _ (OStep.readChunk "x" [] WatcherPC.waitReader)
      (ORun.stepTau _ _ _ _ (OStep.readerFinish _)
        (ORun.stepTau _ _ _ _ (OStep.watcherWake _)
          (ORun.stepEv _ _ _ _ _ (OStep.watcherBanner [] true)
            (ORun.stepEv _ _ _ _ _ (OStep.watcherInsert [] true)
              (ORun.stepEv _ _ _ _ _ (OStep.watcherErase [] true)
                (ORun.stepEv _ _ _ _ _ (OStep.watcherEmitExit [] true)
                  (ORun.stepEv _ _ _ _ _ (OStep.watcherSignal [] true)
                    (ORun.done _)))))))))

/-- C1 counterexample: the registry's remove is not atomic and inserts the
exit record before removing the live entry, so there is an observable
point — between the two lock acquisitions of `remove_pty` — where the same
id is present in both the live map and the exit-record map: at this
concrete input, after the first half of `remove_pty` the id `"a"` is
live and has an exit record simultaneously. -/
theorem remove_pty_both_maps_observable :
    ((AppState.removeInsertExited
      ⟨[("a", ⟨"a", ⟨"/w", "/m", .shell ⟨"dev"⟩⟩, some 7, false, true, true,
        ⟨[], 0⟩, .finished⟩)], []⟩ "a"
      ⟨"a", ⟨"/w", "/m", .shell ⟨"dev"⟩⟩, "", some 0, none, true⟩).pty
        "a").isSome = true ∧
    ((AppState.removeInsertExited
      ⟨[("a", ⟨"a", ⟨"/w", "/m", .shell ⟨"dev"⟩⟩, some 7, false, true, true,
        ⟨[], 0⟩, .finished⟩)], []⟩ "a"
      ⟨"a", ⟨"/w", "/m", .shell ⟨"dev"⟩⟩, "", some 0, none, true⟩).exit_event
        "a").isSome = true := by
  decide

/-- C1 (amended): for every session exactly one exit record is produced —
each complete run of the exit watcher performs the record insertion and
the live-map removal exactly once — but the record is inserted *before*
the session is removed from the live map, under two separate lock
acquisitions, so there is an observable intermediate point at which the id
is present in both maps (the live entry is untouched while the record is
already stored); once `remove_pty` completes, the id is absent from the
live map and its exit record is present. -/
theorem exit_record_insert_then_erase (s : AppState) (id : String)
    (ev : PtyExitEvent) (banner : String) (chunks : List String)
    (tr : List OEvent)
    (h : ORun banner ⟨chunks, false, WatcherPC.waitReader⟩ tr
      ⟨[], true, WatcherPC.finished⟩) :
    (s.removeInsertExited id ev).pty id = s.pty id ∧
    (s.removeInsertExited id ev).exit_event id = some ev ∧
    (s.remove_pty id ev).pty id = none ∧
    (s.remove_pty id ev).exit_event id = some ev ∧
    tr.count OEvent.insertRecord = 1 ∧
    tr.count OEvent.eraseLive = 1 := by
  have hg : OrchGood ⟨chunks, false, WatcherPC.waitReader⟩ :=
    ⟨fun hh => by simp at hh, fun hh => absurd rfl hh⟩
  have htr := orun_trace_aux banner _ tr _ h rfl hg
  have hc1 : (chunks.map OEvent.data).count OEvent.insertRecord = 0 :=
    List.count_eq_zero.2 (by simp)
  have hc2 : (chunks.map OEvent.data).count OEvent.eraseLive = 0 :=
    List.count_eq_zero.2 (by simp)
  refine ⟨rfl, ?_, ?_, ?_, ?_, ?_⟩
  · rw [AppState.removeInsertExited, AppState.exit_event]
    exact mapLookup_insert_self _ id ev
  · rw [AppState.remove_pty]
    exact mapLookup_erase_self _ id
  · rw [AppState.remove_pty, AppState.removeEraseLive, AppState.exit_event]
    exact mapLookup_insert_self _ id ev
  · rw [htr]
    rw [expectedTrace, watcherTrail, List.count_append, hc1]
    simp [List.count_cons]
  · rw [htr]
    rw [expectedTrace, watcherTrail, List.count_append, hc2]
    simp [List.count_cons]

/-- Witness for `exit_record_insert_then_erase` on concrete registry state
and run. -/
theorem exit_record_insert_then_erase_witness :
    ((AppState.removeInsertExited ⟨[], []⟩ "a"
      ⟨"a", ⟨"/w", "/m", .shell ⟨"dev"⟩⟩, "", some 0, none, true⟩).pty "a" =
      (⟨[], []⟩ : AppState).pty "a") ∧
    (AppState.removeInsertExited ⟨[], []⟩ "a"
      ⟨"a", ⟨"/w", "/m", .shell ⟨"dev"⟩⟩, "", some 0, none,
        true⟩).exit_event "a" =
      some ⟨"a", ⟨"/w", "/m", .shell ⟨"dev"⟩⟩, "", some 0, none, true⟩ ∧
    (AppState.remove_pty ⟨[], []⟩ "a"
      ⟨"a", ⟨"/w", "/m", .shell ⟨"dev"⟩⟩, "", some 0, none, true⟩).pty "a" =
      none ∧
    (AppState.remove_pty ⟨[], []⟩ "a"
      ⟨"a", ⟨"/w", "/m", .shell ⟨"dev"⟩⟩, "", some 0, none,
        true⟩).exit_event "a" =
      some ⟨"a", ⟨"/w", "/m", .shell ⟨"dev"⟩⟩, "", some 0, none, true⟩ ∧
    ([OEvent.data "B", OEvent.insertRecord, OEvent.eraseLive,
      OEvent.exitEmit, OEvent.signalSent] : List OEvent).count
        OEvent.insertRecord = 1 ∧
    ([OEvent.data "B", OEvent.insertRecord, OEvent.eraseLive,
      OEvent.exitEmit, OEvent.signalSent] : List OEvent).count
        OEvent.eraseLive = 1 :=
  exit_record_insert_then_erase ⟨[], []⟩ "a"
    ⟨"a", ⟨"/w", "/m", .shell ⟨"dev"⟩⟩, "", some 0, none, true⟩ "B" [] _
    (ORun.stepTau _ _ _ _ (OStep.readerFinish _)
      (ORun.stepTau _ _ _ _ (OStep.watcherWake _)
        (ORun.stepEv _ _ _ _ _ (OStep.watcherBanner [] true)
          (ORun.stepEv _ _ _ _ _ (OStep.watcherInsert [] true)
            (ORun.stepEv _ _ _ _ _ (OStep.watcherErase [] true)
              (ORun.stepEv _ _ _ _ _ (OStep.watcherEmitExit [] true)
                (ORun.stepEv _ _ _ _ _ (OStep.watcherSignal [] true)
                  (ORun.done _))))))))

end PixiGui
